import Mathlib

/-!
Shallow embedding of `src/riesgos.py` (Risk Info API): JSON values,
the hazard normalizers, the fallback fetcher and the bbox computations,
together with theorems settling the specification's claims.
-/

namespace Riesgos

/-- JSON values as produced by parsing an upstream WMS response body.
Numbers are modelled by rationals; objects by association lists in
insertion order (Python dicts from JSON parsing have unique keys). -/
inductive Json where
  | null : Json
  | bool : Bool → Json
  | num : ℚ → Json
  | str : String → Json
  | arr : List Json → Json
  | obj : List (String × Json) → Json

/-- First-match lookup in an association list (Python `dict.__getitem__`
/ `dict.get` for objects coming from JSON, whose keys are unique). -/
def jLookup : List (String × Json) → String → Option Json
  | [], _ => none
  | (k, v) :: rest, key => if k = key then some v else jLookup rest key

/-- Python `d.get(key, default)` on a JSON object. -/
def jGetD (kvs : List (String × Json)) (key : String) (dflt : Json) : Json :=
  (jLookup kvs key).getD dflt

/-- Python truthiness of a JSON value (`bool(x)`): `None`, `False`, `0`,
`""`, `[]`, `{}` are falsy, everything else truthy. -/
def truthy : Json → Bool
  | .null => false
  | .bool b => b
  | .num q => decide (q ≠ 0)
  | .str s => decide (s ≠ "")
  | .arr xs => !xs.isEmpty
  | .obj kvs => !kvs.isEmpty

/-- Python `a or b`: `a` if truthy, else `b`. -/
def pyOr (a b : Json) : Json := if truthy a then a else b

/-- Digits of a nonempty all-digit character list as a natural number. -/
def parseNatDigits (cs : List Char) : Option Nat :=
  if cs.isEmpty then none
  else cs.foldlM (fun acc c => if c.isDigit then some (acc * 10 + (c.toNat - 48)) else none) 0

/-- Exponent part of a decimal literal: optional sign then digits. -/
def parseExpPart (cs : List Char) : Option Int :=
  match cs with
  | '+' :: rest => (parseNatDigits rest).map Int.ofNat
  | '-' :: rest => (parseNatDigits rest).map (fun n => -(n : Int))
  | _ => (parseNatDigits cs).map Int.ofNat

/-- Unsigned decimal literal `digits [. digits] [(e|E) exp]` with at least
one mantissa digit, as a rational. Models the accepting core of Python
`float(str)` on plain decimal literals. -/
def parseUnsigned (cs : List Char) : Option ℚ :=
  let ip := cs.takeWhile Char.isDigit
  let rest := cs.dropWhile Char.isDigit
  let intVal : ℚ := ((ip.foldl (fun acc c => acc * 10 + (c.toNat - 48)) 0 : Nat) : ℚ)
  match rest with
  | [] => if ip.isEmpty then none else some intVal
  | '.' :: rest2 =>
    let fp := rest2.takeWhile Char.isDigit
    let rest3 := rest2.dropWhile Char.isDigit
    if ip.isEmpty ∧ fp.isEmpty then none
    else
      let fracVal : ℚ :=
        ((fp.foldl (fun acc c => acc * 10 + (c.toNat - 48)) 0 : Nat) : ℚ) / (10 : ℚ) ^ fp.length
      let mant := intVal + fracVal
      match rest3 with
      | [] => some mant
      | e :: rest4 =>
        if e = 'e' ∨ e = 'E' then (parseExpPart rest4).map (fun k => mant * (10 : ℚ) ^ k)
        else none
  | e :: rest2 =>
    if (e = 'e' ∨ e = 'E') ∧ ¬ ip.isEmpty then
      (parseExpPart rest2).map (fun k => intVal * (10 : ℚ) ^ k)
    else none

/-- Signed decimal literal: optional `+`/`-` then an unsigned literal. -/
def parseSignedStr (s : String) : Option ℚ :=
  match s.toList with
  | '+' :: rest => parseUnsigned rest
  | '-' :: rest => (parseUnsigned rest).map Neg.neg
  | cs => parseUnsigned cs

/-- Python `float(x)` on a JSON value: numbers pass through, booleans
coerce to 0/1 (`bool` is an `int` subtype), strings are parsed as decimal
literals, everything else raises (`none`). -/
def pyFloat : Json → Option ℚ
  | .num q => some q
  | .bool b => some (if b then 1 else 0)
  | .str s => parseSignedStr s
  | _ => none

/-- The raster no-data sentinel `-3.4028234663852886e+38` from the source. -/
def NODATA : ℚ := -(34028234663852886 : ℚ) * (10 : ℚ) ^ (22 : ℕ)

/-- Bucketing of a numeric `GRAY_INDEX` value inside `inundable_from_gray`:
`0` → not flooded, within `1e-6` of the no-data sentinel → no data,
anything else → flooded. -/
def grayLevel (q : ℚ) : String :=
  if q = 0 then "no_inundable"
  else if |q - NODATA| < 1 / 1000000 then "nodata"
  else "inundable"

/-- Body of `inundable_from_gray` before its enclosing `try`/`except`:
`none` models a raised exception. -/
def inundableCore (fc : Json) : Option String :=
  match fc with
  | .obj kvs =>
    let featsJ := jGetD kvs "features" (.arr [])
    if ¬ truthy featsJ then some "nodata"
    else
      match featsJ with
      | .arr (f0 :: _) =>
        match f0 with
        | .obj f0kvs =>
          match jGetD f0kvs "properties" (.obj []) with
          | .obj pkvs =>
            match jGetD pkvs "GRAY_INDEX" .null with
            | .null => some "nodata"
            | .num q => some (grayLevel q)
            | .bool b => some (grayLevel (if b then 1 else 0))
            | .str s =>
              match parseSignedStr s with
              | some g => some (grayLevel g)
              | none => none
            | _ => none
          | _ => none
        | _ => none
      | _ => none
  | _ => none

/-- `inundable_from_gray` from the source: normalizes a raw IDEE flood
`GetFeatureInfo` result to `inundable` / `no_inundable` / `nodata`; any
exception in the body yields `nodata`. -/
def inundable_from_gray (fc : Json) : String :=
  (inundableCore fc).getD "nodata"

/-- The dict comprehension `{k: v for k, v in f.items() if k != "geometry"}`. -/
def dropGeometry (kvs : List (String × Json)) : List (String × Json) :=
  kvs.filter (fun kv => kv.1 ≠ "geometry")

/-- Python `obj.get("type") == t` on a JSON object. -/
def jTypeIs (kvs : List (String × Json)) (t : String) : Bool :=
  match jLookup kvs "type" with
  | some (.str s) => s = t
  | _ => false

/-- Feature-list comprehension inside `remove_geometry_from_geojson`:
keeps only dict features, each with its `geometry` key removed. -/
def stripFeats : List Json → List Json
  | [] => []
  | .obj fkvs :: rest => .obj (dropGeometry fkvs) :: stripFeats rest
  | _ :: rest => stripFeats rest

/-- `remove_geometry_from_geojson` from the source. `none` models the
uncaught `TypeError` of iterating a non-iterable `features` value; a
string or dict `features` value iterates to non-dict elements, which the
comprehension drops. -/
def remove_geometry_from_geojson (j : Json) : Option Json :=
  match j with
  | .obj kvs =>
    if jTypeIs kvs "FeatureCollection" then
      match jLookup kvs "features" with
      | none => some (.obj [("type", .str "FeatureCollection"), ("features", .arr [])])
      | some (.arr fs) =>
        some (.obj [("type", .str "FeatureCollection"), ("features", .arr (stripFeats fs))])
      | some (.str _) =>
        some (.obj [("type", .str "FeatureCollection"), ("features", .arr [])])
      | some (.obj _) =>
        some (.obj [("type", .str "FeatureCollection"), ("features", .arr [])])
      | some _ => none
    else if jTypeIs kvs "Feature" then
      some (.obj (dropGeometry kvs))
    else some j
  | _ => some j

/-- The `{"resumen": "desconocido", "fuente": "MITECO", "raw": obj}`
result of `parse_incendios_summary` for errors and non-dict input. -/
def incendiosUnknown (obj : Json) : Json :=
  .obj [("resumen", .str "desconocido"), ("fuente", .str "MITECO"), ("raw", obj)]

/-- The municipality name probe of `parse_incendios_summary`:
`props.get("municipio") or ... or props.get("NOMBRE")`. -/
def municipioOf (pkvs : List (String × Json)) : Json :=
  pyOr (jGetD pkvs "municipio" .null)
    (pyOr (jGetD pkvs "MUNICIPIO" .null)
      (pyOr (jGetD pkvs "name" .null)
        (pyOr (jGetD pkvs "NAMEUNIT" .null) (jGetD pkvs "NOMBRE" .null))))

/-- The frequency probe of `parse_incendios_summary`:
`props.get("frecuencia") or props.get("N_INCENDIOS") or props.get("num_incendios")`. -/
def freqOf (pkvs : List (String × Json)) : Json :=
  pyOr (jGetD pkvs "frecuencia" .null)
    (pyOr (jGetD pkvs "N_INCENDIOS" .null) (jGetD pkvs "num_incendios" .null))

/-- The fire-frequency bucketing of `parse_incendios_summary`:
`f == 0` → ninguno, `f < 5` → bajo, `f < 20` → medio, else alto. -/
def nivelIncendios (f : ℚ) : String :=
  if f = 0 then "ninguno" else if f < 5 then "bajo" else if f < 20 then "medio" else "alto"

/-- `parse_incendios_summary` from the source. `none` models an uncaught
exception (only the frequency conversion is wrapped in `try`/`except` in
the code; subscript and attribute errors propagate to the endpoint). -/
def parse_incendios_summary (obj : Json) : Option Json :=
  match obj with
  | .obj kvs =>
    if truthy (jGetD kvs "error" .null) then some (incendiosUnknown obj)
    else
      match remove_geometry_from_geojson obj with
      | none => none
      | some fc =>
        let featsJ : Json :=
          match fc with
          | .obj fckvs => jGetD fckvs "features" (.arr [])
          | _ => .arr []
        if ¬ truthy featsJ then
          some (.obj [("resumen", .str "sin_datos"), ("fuente", .str "MITECO")])
        else
          match featsJ with
          | .arr (f0 :: _) =>
            match f0 with
            | .obj f0kvs =>
              match jGetD f0kvs "properties" (.obj f0kvs) with
              | .obj pkvs =>
                let municipio := municipioOf pkvs
                let freq := freqOf pkvs
                let nivel : Option String :=
                  match freq with
                  | .null => none
                  | f =>
                    match pyFloat f with
                    | some q => some (nivelIncendios q)
                    | none => none
                match nivel with
                | some n =>
                  some (.obj [("fuente", .str "MITECO"), ("municipio", municipio),
                    ("riesgo_incendios", .str n), ("frecuencia_aprox", freq),
                    ("props", .obj pkvs)])
                | none =>
                  some (.obj [("fuente", .str "MITECO"), ("municipio", municipio),
                    ("riesgo_incendios", .str "desconocido"), ("props", .obj pkvs)])
              | _ => none
            | _ => none
          | _ => none
  | _ => some (incendiosUnknown obj)

/-- The PGA key probe of `parse_sismico_summary`: first key present in
`props` whose value converts with `float`; unconvertible hits are skipped. -/
def findPGA (pkvs : List (String × Json)) : List String → Option ℚ
  | [] => none
  | k :: rest =>
    match jLookup pkvs k with
    | none => findPGA pkvs rest
    | some v =>
      match pyFloat v with
      | some q => some q
      | none => findPGA pkvs rest

/-- The PGA bucketing of `parse_sismico_summary`:
`pga < 0.04` → bajo, `pga < 0.08` → medio, else alto. -/
def nivelSismico (pga : ℚ) : String :=
  if pga < 4 / 100 then "bajo" else if pga < 8 / 100 then "medio" else "alto"

/-- Body of `parse_sismico_summary` before its enclosing `try`/`except`:
`none` models a raised exception. -/
def sismicoCore (obj : Json) : Option Json :=
  match remove_geometry_from_geojson obj with
  | none => none
  | some fc =>
    match fc with
    | .obj fckvs =>
      let featsJ := jGetD fckvs "features" (.arr [])
      if ¬ truthy featsJ then some (.obj [("riesgo_sismico", .str "desconocido")])
      else
        match featsJ with
        | .arr (f0 :: _) =>
          match f0 with
          | .obj f0kvs =>
            match jGetD f0kvs "properties" (.obj f0kvs) with
            | .obj pkvs =>
              match findPGA pkvs ["PGA", "pga", "aceleracion", "ACCEL", "amax"] with
              | none => some (.obj [("riesgo_sismico", .str "desconocido")])
              | some pga =>
                some (.obj [("pga", .num pga), ("riesgo_sismico", .str (nivelSismico pga))])
            | _ => none
          | _ => none
        | _ => none
    | _ => none

/-- `parse_sismico_summary` from the source: any exception in the body
yields `{"riesgo_sismico": "desconocido"}`. -/
def parse_sismico_summary (obj : Json) : Json :=
  (sismicoCore obj).getD (.obj [("riesgo_sismico", .str "desconocido")])

/-- Outcome of one HTTP GET attempt in `fetch_any`: `ok parsed text` is a
2xx response with body `text` and `parsed = some j` exactly when
`r.json()` succeeds; `fail msg` is any transport exception (timeout,
connection error, `raise_for_status`), carrying `str(e)`. -/
inductive HttpOutcome where
  | ok : Option Json → String → HttpOutcome
  | fail : String → HttpOutcome

/-- Result `fetch_any` returns for the first transport success: the parsed
JSON body, else `{"raw": text}`. -/
def okResult (parsed : Option Json) (text : String) : Json :=
  match parsed with
  | some j => j
  | none => .obj [("raw", .str text)]

/-- The `{"error": msg}` result of `fetch_any`. -/
def errObj (m : String) : Json := .obj [("error", .str m)]

/-- Python `last_err or "unknown error"` where `last_err` starts as `None`. -/
def lastErrMsg : Option String → String
  | none => "unknown error"
  | some m => if m = "" then "unknown error" else m

/-- The candidate loop of `fetch_any`, threading the `last_err`
accumulator; besides the result it returns the list of candidates
actually attempted, in order. -/
def fetchAnyGo : List HttpOutcome → Option String → Json × List HttpOutcome
  | [], lastErr => (errObj (lastErrMsg lastErr), [])
  | .ok parsed text :: _, _ => (okResult parsed text, [.ok parsed text])
  | .fail m :: rest, _ =>
    let r := fetchAnyGo rest (some m)
    (r.1, .fail m :: r.2)

/-- `fetch_any` from the source, over the outcomes of its candidate URLs
in list order: JSON body of the first transport success, else its raw
text, else `{"error": last failure message}`. -/
def fetch_any (outcomes : List HttpOutcome) : Json :=
  (fetchAnyGo outcomes none).1

/-- The candidates `fetch_any` actually attempts, in order. -/
def fetchAnyTrace (outcomes : List HttpOutcome) : List HttpOutcome :=
  (fetchAnyGo outcomes none).2

/-- The `bbox_crs84` computation of `fetch_all_risks`:
`lon-d, lat-d, lon+d, lat+d` (axis order lon,lat). -/
def bbox_crs84 (lat lon d : ℝ) : ℝ × ℝ × ℝ × ℝ :=
  (lon - d, lat - d, lon + d, lat + d)

/-- The `bbox_epsg4326` computation of `fetch_all_risks`:
`lat-d, lon-d, lat+d, lon+d` (axis order lat,lon per WMS 1.3.0). -/
def bbox_epsg4326 (lat lon d : ℝ) : ℝ × ℝ × ℝ × ℝ :=
  (lat - d, lon - d, lat + d, lon + d)

/-- Swap the coordinates within the min pair and within the max pair of a
bounding box. -/
def swapPairs : ℝ × ℝ × ℝ × ℝ → ℝ × ℝ × ℝ × ℝ
  | (a, b, c, d) => (b, a, d, c)

/-- `to_webmercator` from the source: spherical WGS84 → Web Mercator
(EPSG:3857) forward transform with `R = 6378137.0`. -/
noncomputable def to_webmercator (lat lon : ℝ) : ℝ × ℝ :=
  let R : ℝ := 6378137.0
  (lon * (Real.pi / 180.0) * R,
   Real.log (Real.tan ((Real.pi / 4.0) + (lat * Real.pi / 360.0))) * R)

/-- Modelled from the spec's formula (§4.1) to compare with the source's
`to_webmercator`: `x = lon·π/180·R`, `y = R·ln(tan(π/4 + lat·π/360))`,
`R = 6378137.0`. -/
noncomputable def webmercatorSpec (lat lon : ℝ) : ℝ × ℝ :=
  (lon * Real.pi / 180 * 6378137.0,
   6378137.0 * Real.log (Real.tan (Real.pi / 4 + lat * Real.pi / 360)))

/-- The `bbox_3857` computation of `fetch_all_risks`: Web-Mercator point
± `d` meters, axis order x,y. -/
noncomputable def bbox_3857 (lat lon d : ℝ) : ℝ × ℝ × ℝ × ℝ :=
  let p := to_webmercator lat lon
  (p.1 - d, p.2 - d, p.1 + d, p.2 + d)

/-- A `GetFeatureInfo` request descriptor: the inputs `fetch_all_risks`
hands to `build_gfi_url` (bbox kept numeric together with its CRS tag;
tolerance vendor parameters as integers). -/
structure GfiRequest where
  wms_url : String
  layer : String
  bbox : ℝ × ℝ × ℝ × ℝ
  crs : String
  info_format : String
  styles : Option String
  vendor : List (String × Int)

/-- The seven-candidate wildfire cascade of `fetch_all_risks`: CRS:84
json/html/plain, then EPSG:4326 json/html, then EPSG:3857 json/html. -/
noncomputable def incendiosRequests (lat lon : ℝ) : List GfiRequest :=
  let wms := "https://wms.mapama.gob.es/sig/Biodiversidad/Incendios/2006_2015"
  let sty : Option String := some "Biodiversidad_Incendios"
  [⟨wms, "NZ.HazardArea", bbox_crs84 lat lon 0.20, "CRS:84", "application/json", sty, []⟩,
   ⟨wms, "NZ.HazardArea", bbox_crs84 lat lon 0.20, "CRS:84", "text/html", sty, []⟩,
   ⟨wms, "NZ.HazardArea", bbox_crs84 lat lon 0.20, "CRS:84", "text/plain", sty, []⟩,
   ⟨wms, "NZ.HazardArea", bbox_epsg4326 lat lon 0.20, "EPSG:4326", "application/json", sty, []⟩,
   ⟨wms, "NZ.HazardArea", bbox_epsg4326 lat lon 0.20, "EPSG:4326", "text/html", sty, []⟩,
   ⟨wms, "NZ.HazardArea", bbox_3857 lat lon 15000.0, "EPSG:3857", "application/json", sty, []⟩,
   ⟨wms, "NZ.HazardArea", bbox_3857 lat lon 15000.0, "EPSG:3857", "text/html", sty, []⟩]

/-- The GeoServer tolerance vendor parameters of `fetch_all_risks`. -/
def fiTolerances : List (String × Int) :=
  [("FI_POINT_TOLERANCE", 8), ("FI_LINE_TOLERANCE", 4), ("FI_POLYGON_TOLERANCE", 4)]

/-- The single fluvial-flood request of `fetch_all_risks` for one return
period. -/
def fluvialRequest (lat lon : ℝ) (periodo : String) : GfiRequest :=
  ⟨"https://servicios.idee.es/wms-inspire/riesgos-naturales/inundaciones",
   "NZ.Flood.Fluvial" ++ periodo, bbox_crs84 lat lon 0.02, "CRS:84",
   "application/json", none, fiTolerances⟩

/-- The single coastal-flood request of `fetch_all_risks` for one return
period. -/
def marinaRequest (lat lon : ℝ) (periodo : String) : GfiRequest :=
  ⟨"https://servicios.idee.es/wms-inspire/riesgos-naturales/inundaciones",
   "NZ.Flood.Marina" ++ periodo, bbox_crs84 lat lon 0.02, "CRS:84",
   "application/json", none, fiTolerances⟩

/-- The single seismic request of `fetch_all_risks`. -/
def sismicoRequest (lat lon : ℝ) : GfiRequest :=
  ⟨"https://www.ign.es/wms-inspire/geofisica", "HazardArea2002.NCSE-02",
   bbox_crs84 lat lon 0.02, "CRS:84", "application/json", none, []⟩

/-- `fetch_all_risks` from the source, parameterized by the network's
response `net` to each request: the raw per-hazard result tree, an
association list in insertion order. -/
noncomputable def fetch_all_risks (net : GfiRequest → HttpOutcome) (lat lon : ℝ) :
    List (String × Json) :=
  [("incendios", fetch_any ((incendiosRequests lat lon).map net)),
   ("inundacion_fluvial",
     .obj (["T10", "T100", "T500"].map
       (fun p => (p, fetch_any [net (fluvialRequest lat lon p)])))),
   ("inundacion_marina",
     .obj (["T100", "T500"].map
       (fun p => (p, fetch_any [net (marinaRequest lat lon p)])))),
   ("sismico", fetch_any [net (sismicoRequest lat lon)])]

/-- The `last_err` accumulator value after a list of failure messages. -/
def lastMsg : List String → Option String → Option String
  | [], le => le
  | m :: rest, _ => lastMsg rest (some m)

/-- A GeoJSON `FeatureCollection` whose first feature has the given
`properties`, followed by `tail` further features: the input shape common
to the normalizer claims. -/
def mkFC (props : List (String × Json)) (tail : List Json) : Json :=
  .obj [("type", .str "FeatureCollection"),
        ("features", .arr (.obj [("properties", .obj props)] :: tail))]

/-! ## Theorems -/

/-- Helper: the candidate loop skips a prefix of failures and stops at the
first transport success, whatever the accumulated error is. -/
theorem fetchAnyGo_skip_failures (pre : List String) (parsed : Option Json) (text : String)
    (rest : List HttpOutcome) :
    ∀ le, fetchAnyGo (pre.map HttpOutcome.fail ++ HttpOutcome.ok parsed text :: rest) le
      = (okResult parsed text, pre.map HttpOutcome.fail ++ [HttpOutcome.ok parsed text]) := by
  induction pre with
  | nil => intro le; rfl
  | cons m pre ih =>
    intro le
    simp only [List.map_cons, List.cons_append, fetchAnyGo, List.append_eq, ih (some m)]

/-- Helper: on an all-failure candidate list the loop returns the
`{"error": ...}` object built from the final `last_err` accumulator. -/
theorem fetchAnyGo_all_fail (msgs : List String) :
    ∀ le, fetchAnyGo (msgs.map HttpOutcome.fail) le
      = (errObj (lastErrMsg (lastMsg msgs le)), msgs.map HttpOutcome.fail) := by
  induction msgs with
  | nil => intro le; rfl
  | cons m msgs ih =>
    intro le
    simp only [List.map_cons, fetchAnyGo, ih (some m), lastMsg]

/-- Helper: the `last_err` accumulator over a nonempty message list is the
last message of the list. -/
theorem lastMsg_eq_getLast (msgs : List String) (h : msgs ≠ []) :
    ∀ le, lastMsg msgs le = msgs.getLast? := by
  induction msgs with
  | nil => exact absurd rfl h
  | cons m msgs ih =>
    intro le
    cases msgs with
    | nil => rfl
    | cons m2 rest =>
      rw [lastMsg, ih (List.cons_ne_nil m2 rest) (some m), List.getLast?_cons_cons]

/-- C5: for every ordered candidate list in which candidate `k` is the
first whose HTTP attempt succeeds (all `k` earlier candidates fail),
`fetch_any` returns exactly candidate `k`'s result — its parsed body, or
its raw text if parsing fails — and the candidates it attempts are
exactly the first `k+1` in list order: none after `k` is ever attempted. -/
theorem fetch_any_first_success (pre : List String) (parsed : Option Json) (text : String)
    (rest : List HttpOutcome) :
    fetch_any (pre.map HttpOutcome.fail ++ HttpOutcome.ok parsed text :: rest)
        = okResult parsed text
    ∧ fetchAnyTrace (pre.map HttpOutcome.fail ++ HttpOutcome.ok parsed text :: rest)
        = pre.map HttpOutcome.fail ++ [HttpOutcome.ok parsed text] := by
  unfold fetch_any fetchAnyTrace
  rw [fetchAnyGo_skip_failures pre parsed text rest none]
  exact ⟨rfl, rfl⟩

/-- C10: called with an empty candidate list, `fetch_any` does not raise
and returns the error object with the fixed message `"unknown error"`
(the `last_err` accumulator is still `None`). -/
theorem fetch_any_empty : fetch_any [] = errObj "unknown error" := rfl

/-- C7: for every point within WGS84 bounds and every half-window, the
CRS:84 bbox (lon,lat order) and the EPSG:4326 bbox (lat,lon order)
computed in `fetch_all_risks` are axis-order reflections of each other:
swapping the coordinates within the min pair and within the max pair of
one yields the other. -/
theorem bbox_axis_order_reflection (lat lon d : ℝ)
    (_h1 : -90 ≤ lat) (_h2 : lat ≤ 90) (_h3 : -180 ≤ lon) (_h4 : lon ≤ 180) :
    swapPairs (bbox_crs84 lat lon d) = bbox_epsg4326 lat lon d := rfl

/-- Witness for C7 at lat 40, lon -3, half-window 0.20. -/
theorem bbox_axis_order_reflection_witness :
    ((-90 : ℝ) ≤ 40 ∧ (40 : ℝ) ≤ 90 ∧ (-180 : ℝ) ≤ -3 ∧ (-3 : ℝ) ≤ 180)
    ∧ swapPairs (bbox_crs84 40 (-3) 0.20) = bbox_epsg4326 40 (-3) 0.20 :=
  ⟨⟨by norm_num, by norm_num, by norm_num, by norm_num⟩,
   bbox_axis_order_reflection 40 (-3) 0.20 (by norm_num) (by norm_num) (by norm_num)
     (by norm_num)⟩

/-- C6: `fetch_any` never raises — it is a total function into result
objects — and its result is always one of the three `RawHazardResult`
shapes: for the first transport success it is the parsed body
(structured data), or the `{"raw": body}` text value when the body does
not parse (a non-error outcome); and when every candidate's transport
fails it is `{"error": m}` where `m` is the message of the last failed
attempt (earlier messages are discarded), or the fallback
`"unknown error"` for an empty candidate list. Stated for attempts with
nonempty failure messages, as produced by `str(e)` on real transport
errors. -/
theorem fetch_any_result_shapes (outcomes : List HttpOutcome)
    (hne : ∀ m, HttpOutcome.fail m ∈ outcomes → m ≠ "") :
    (∃ (pre : List String) (parsed : Option Json) (text : String) (rest : List HttpOutcome),
        outcomes = pre.map HttpOutcome.fail ++ HttpOutcome.ok parsed text :: rest
        ∧ fetch_any outcomes = okResult parsed text)
    ∨ (∃ msgs : List String, outcomes = msgs.map HttpOutcome.fail
        ∧ ((msgs = [] ∧ fetch_any outcomes = errObj "unknown error")
            ∨ (∃ m, msgs.getLast? = some m ∧ fetch_any outcomes = errObj m))) := by
  induction outcomes with
  | nil => exact Or.inr ⟨[], rfl, Or.inl ⟨rfl, rfl⟩⟩
  | cons o rest ih =>
    match o with
    | HttpOutcome.ok parsed text =>
      exact Or.inl ⟨[], parsed, text, rest, rfl, rfl⟩
    | HttpOutcome.fail m =>
      have hne' : ∀ m', HttpOutcome.fail m' ∈ rest → m' ≠ "" := by
        intro m' hm'
        exact hne m' (List.mem_cons_of_mem _ hm')
      rcases ih hne' with ⟨pre, parsed, text, r, heq, _⟩ | ⟨msgs, heq, _⟩
      · subst heq
        refine Or.inl ⟨m :: pre, parsed, text, r, rfl, ?_⟩
        show (fetchAnyGo ((m :: pre).map HttpOutcome.fail
          ++ HttpOutcome.ok parsed text :: r) none).1 = _
        rw [fetchAnyGo_skip_failures]
      · subst heq
        refine Or.inr ⟨m :: msgs, rfl, Or.inr ?_⟩
        have hfa : fetch_any ((m :: msgs).map HttpOutcome.fail)
            = errObj (lastErrMsg (lastMsg (m :: msgs) none)) := by
          unfold fetch_any
          rw [fetchAnyGo_all_fail]
        rw [lastMsg_eq_getLast (m :: msgs) (List.cons_ne_nil m msgs) none] at hfa
        cases hv : (m :: msgs).getLast? with
        | none => exact absurd (List.getLast?_eq_none_iff.mp hv) (List.cons_ne_nil m msgs)
        | some v =>
          refine ⟨v, rfl, ?_⟩
          rw [hv] at hfa
          have hvmem : v ∈ m :: msgs := List.mem_of_getLast?_eq_some hv
          have hvne : v ≠ "" :=
            hne v (List.map_cons HttpOutcome.fail m msgs ▸
              List.mem_map_of_mem HttpOutcome.fail hvmem)
          show fetch_any ((m :: msgs).map HttpOutcome.fail) = errObj v
          rw [hfa]
          simp [lastErrMsg, hvne]

/-- Witness for C6 on a concrete all-failure candidate list. -/
theorem fetch_any_result_shapes_witness :
    (∀ m, HttpOutcome.fail m ∈ [HttpOutcome.fail "boom1", HttpOutcome.fail "boom2"] → m ≠ "")
    ∧ ((∃ (pre : List String) (parsed : Option Json) (text : String) (rest : List HttpOutcome),
          [HttpOutcome.fail "boom1", HttpOutcome.fail "boom2"]
            = pre.map HttpOutcome.fail ++ HttpOutcome.ok parsed text :: rest
          ∧ fetch_any [HttpOutcome.fail "boom1", HttpOutcome.fail "boom2"]
              = okResult parsed text)
      ∨ (∃ msgs : List String,
          [HttpOutcome.fail "boom1", HttpOutcome.fail "boom2"] = msgs.map HttpOutcome.fail
          ∧ ((msgs = []
              ∧ fetch_any [HttpOutcome.fail "boom1", HttpOutcome.fail "boom2"]
                  = errObj "unknown error")
            ∨ (∃ m, msgs.getLast? = some m
                ∧ fetch_any [HttpOutcome.fail "boom1", HttpOutcome.fail "boom2"]
                    = errObj m)))) := by
  have hne : ∀ m, HttpOutcome.fail m ∈ [HttpOutcome.fail "boom1", HttpOutcome.fail "boom2"]
      → m ≠ "" := by
    intro m hm
    rcases List.mem_cons.mp hm with h | h
    · injection h with h'
      subst h'
      decide
    · rcases List.mem_cons.mp h with h2 | h2
      · injection h2 with h2'
        subst h2'
        decide
      · cases h2
  exact ⟨hne, fetch_any_result_shapes _ hne⟩

/-- C2 counterexample: at a concrete point with every upstream request
failing, the aggregate raw-result tree of `fetch_all_risks` has exactly
the four hazard keys `incendios`, `inundacion_fluvial`,
`inundacion_marina`, `sismico`; it contains no desertification entry
(under the repository's Spanish naming, `desertificacion`), and no
desertification normalizer exists in the code. -/
theorem fetch_all_risks_no_desertificacion :
    (fetch_all_risks (fun _ => HttpOutcome.fail "boom") 40 (-3)).map Prod.fst
      = ["incendios", "inundacion_fluvial", "inundacion_marina", "sismico"]
    ∧ "desertificacion"
        ∉ (fetch_all_risks (fun _ => HttpOutcome.fail "boom") 40 (-3)).map Prod.fst := by
  refine ⟨rfl, ?_⟩
  have h : (fetch_all_risks (fun _ => HttpOutcome.fail "boom") 40 (-3)).map Prod.fst
      = ["incendios", "inundacion_fluvial", "inundacion_marina", "sismico"] := rfl
  rw [h]
  decide

/-- C2 amended: for every network behavior and every query point, the
aggregate result of `fetch_all_risks` contains entries for exactly the
four hazard families wildfire (`incendios`), fluvial flood
(`inundacion_fluvial`), coastal flood (`inundacion_marina`) and seismic
(`sismico`), in this order — there is no desertification family. -/
theorem fetch_all_risks_keys (net : GfiRequest → HttpOutcome) (lat lon : ℝ) :
    (fetch_all_risks net lat lon).map Prod.fst
      = ["incendios", "inundacion_fluvial", "inundacion_marina", "sismico"] := rfl

/-- Helper: `dropGeometry` on a cons cell. -/
theorem dropGeometry_cons (k : String) (v : Json) (rest : List (String × Json)) :
    dropGeometry ((k, v) :: rest)
      = if k = "geometry" then dropGeometry rest else (k, v) :: dropGeometry rest := by
  by_cases h : k = "geometry" <;> simp [dropGeometry, List.filter_cons, h]

/-- Helper: the `geometry` key never survives the per-feature filter. -/
theorem jLookup_dropGeometry_geometry (fkvs : List (String × Json)) :
    jLookup (dropGeometry fkvs) "geometry" = none := by
  induction fkvs with
  | nil => rfl
  | cons kv rest ih =>
    obtain ⟨k, v⟩ := kv
    rw [dropGeometry_cons]
    by_cases h : k = "geometry"
    · rw [if_pos h]
      exact ih
    · rw [if_neg h, jLookup, if_neg h]
      exact ih

/-- Helper: the per-feature filter changes no key other than `geometry`. -/
theorem jLookup_dropGeometry_ne (fkvs : List (String × Json)) (key : String)
    (hk : key ≠ "geometry") :
    jLookup (dropGeometry fkvs) key = jLookup fkvs key := by
  induction fkvs with
  | nil => rfl
  | cons kv rest ih =>
    obtain ⟨k, v⟩ := kv
    rw [dropGeometry_cons]
    by_cases h : k = "geometry"
    · subst h
      have hne : ¬ ("geometry" = key) := fun e => hk e.symm
      rw [if_pos rfl, jLookup, if_neg hne]
      exact ih
    · rw [if_neg h, jLookup, jLookup]
      by_cases h2 : k = key
      · rw [if_pos h2, if_pos h2]
      · rw [if_neg h2, if_neg h2]
        exact ih

/-- Helper: on a list of dict features the comprehension keeps every
feature, removing exactly its `geometry` key. -/
theorem stripFeats_map_obj (featsKvs : List (List (String × Json))) :
    stripFeats (featsKvs.map Json.obj)
      = featsKvs.map (fun f => Json.obj (dropGeometry f)) := by
  induction featsKvs with
  | nil => rfl
  | cons f rest ih => simp [stripFeats, ih]

/-- C9: the geometry-stripping transform removes the `geometry` field
from every feature of a `FeatureCollection` and from a bare `Feature`,
leaves every feature's other fields — in particular `properties` —
unchanged (lookups at any other key are preserved), and leaves any input
that is not a `FeatureCollection` or `Feature` unchanged. -/
theorem remove_geometry_claim :
    (∀ (kvs : List (String × Json)) (featsKvs : List (List (String × Json))),
        jLookup kvs "type" = some (.str "FeatureCollection") →
        jLookup kvs "features" = some (.arr (featsKvs.map Json.obj)) →
        remove_geometry_from_geojson (.obj kvs)
          = some (.obj [("type", .str "FeatureCollection"),
              ("features", .arr (featsKvs.map (fun f => Json.obj (dropGeometry f))))]))
    ∧ (∀ fkvs : List (String × Json), jLookup (dropGeometry fkvs) "geometry" = none)
    ∧ (∀ (fkvs : List (String × Json)) (key : String), key ≠ "geometry" →
        jLookup (dropGeometry fkvs) key = jLookup fkvs key)
    ∧ (∀ kvs : List (String × Json), jLookup kvs "type" = some (.str "Feature") →
        remove_geometry_from_geojson (.obj kvs) = some (.obj (dropGeometry kvs)))
    ∧ (∀ j : Json,
        (∀ kvs, j = .obj kvs → ∀ t, jLookup kvs "type" = some (.str t) →
          t ≠ "FeatureCollection" ∧ t ≠ "Feature") →
        remove_geometry_from_geojson j = some j) := by
  refine ⟨?_, jLookup_dropGeometry_geometry,
    fun fkvs key hk => jLookup_dropGeometry_ne fkvs key hk, ?_, ?_⟩
  · intro kvs featsKvs htype hfeats
    have hfc : jTypeIs kvs "FeatureCollection" = true := by
      rw [jTypeIs, htype]
      decide
    rw [remove_geometry_from_geojson, if_pos hfc, hfeats]
    show some (Json.obj [("type", Json.str "FeatureCollection"),
      ("features", Json.arr (stripFeats (List.map Json.obj featsKvs)))]) = _
    rw [stripFeats_map_obj]
  · intro kvs htype
    have hfc : jTypeIs kvs "FeatureCollection" = false := by
      rw [jTypeIs, htype]
      decide
    have hft : jTypeIs kvs "Feature" = true := by
      rw [jTypeIs, htype]
      decide
    rw [remove_geometry_from_geojson, if_neg (by rw [hfc]; exact Bool.false_ne_true),
      if_pos hft]
  · intro j hj
    match j with
    | .null | .bool _ | .num _ | .str _ | .arr _ => rfl
    | .obj kvs =>
      have hfc : jTypeIs kvs "FeatureCollection" = false := by
        rw [jTypeIs]
        cases hlt : jLookup kvs "type" with
        | none => rfl
        | some v =>
          match v with
          | .null | .bool _ | .num _ | .arr _ | .obj _ => rfl
          | .str t =>
            obtain ⟨h1, _⟩ := hj kvs rfl t hlt
            simpa using h1
      have hft : jTypeIs kvs "Feature" = false := by
        rw [jTypeIs]
        cases hlt : jLookup kvs "type" with
        | none => rfl
        | some v =>
          match v with
          | .null | .bool _ | .num _ | .arr _ | .obj _ => rfl
          | .str t =>
            obtain ⟨_, h2⟩ := hj kvs rfl t hlt
            simpa using h2
      rw [remove_geometry_from_geojson, if_neg (by rw [hfc]; exact Bool.false_ne_true),
        if_neg (by rw [hft]; exact Bool.false_ne_true)]

/-- Witness for C9 on a concrete feature collection, feature and
non-GeoJSON value. -/
theorem remove_geometry_claim_witness :
    (jLookup [("type", Json.str "FeatureCollection"),
        ("features", Json.arr [Json.obj [("geometry", Json.num 1),
          ("properties", Json.obj [("a", Json.num 2)])]])] "type"
      = some (Json.str "FeatureCollection"))
    ∧ (jLookup [("type", Json.str "FeatureCollection"),
        ("features", Json.arr [Json.obj [("geometry", Json.num 1),
          ("properties", Json.obj [("a", Json.num 2)])]])] "features"
      = some (Json.arr ([[("geometry", Json.num 1),
          ("properties", Json.obj [("a", Json.num 2)])]].map Json.obj)))
    ∧ remove_geometry_from_geojson (Json.obj [("type", Json.str "FeatureCollection"),
        ("features", Json.arr [Json.obj [("geometry", Json.num 1),
          ("properties", Json.obj [("a", Json.num 2)])]])])
      = some (Json.obj [("type", Json.str "FeatureCollection"),
          ("features", Json.arr ([[("geometry", Json.num 1),
            ("properties", Json.obj [("a", Json.num 2)])]].map
              (fun f => Json.obj (dropGeometry f))))])
    ∧ jLookup (dropGeometry [("geometry", Json.num 1),
        ("properties", Json.obj [("a", Json.num 2)])]) "geometry" = none
    ∧ ("properties" : String) ≠ "geometry"
    ∧ jLookup (dropGeometry [("geometry", Json.num 1),
        ("properties", Json.obj [("a", Json.num 2)])]) "properties"
      = jLookup [("geometry", Json.num 1),
          ("properties", Json.obj [("a", Json.num 2)])] "properties"
    ∧ (jLookup [("type", Json.str "Feature"), ("geometry", Json.num 1),
        ("properties", Json.obj [("a", Json.num 2)])] "type" = some (Json.str "Feature"))
    ∧ remove_geometry_from_geojson (Json.obj [("type", Json.str "Feature"),
        ("geometry", Json.num 1), ("properties", Json.obj [("a", Json.num 2)])])
      = some (Json.obj (dropGeometry [("type", Json.str "Feature"),
          ("geometry", Json.num 1), ("properties", Json.obj [("a", Json.num 2)])]))
    ∧ remove_geometry_from_geojson (Json.num 3) = some (Json.num 3) := by
  refine ⟨rfl, rfl, remove_geometry_claim.1 _ _ rfl rfl,
    remove_geometry_claim.2.1 _, by decide,
    remove_geometry_claim.2.2.1 _ "properties" (by decide),
    rfl, remove_geometry_claim.2.2.2.1 _ rfl,
    remove_geometry_claim.2.2.2.2 (Json.num 3) ?_⟩
  intro kvs h
  cases h

/-- Helper: NODATA is far below any value within `1e-6` of zero, so a
gray value near the sentinel is nonzero. -/
theorem ne_zero_of_near_nodata (q : ℚ) (h : |q - NODATA| < 1 / 1000000) : q ≠ 0 := by
  intro e
  subst e
  rw [zero_sub, abs_neg, NODATA, neg_mul, abs_neg,
    abs_of_nonneg (by positivity)] at h
  norm_num at h

/-- C3: `inundable_from_gray` returns `no_inundable` (not-flooded) when
the first feature's `GRAY_INDEX` is `0`; `nodata` when the value is
within `1e-6` of the sentinel `-3.4028234663852886e38`; `inundable`
(flooded) for every other numeric value; `nodata` when the `GRAY_INDEX`
field is absent; and `nodata` when the feature list is empty. -/
theorem inundable_from_gray_claim :
    (∀ (rest : List (String × Json)) (tail : List Json),
        inundable_from_gray (mkFC (("GRAY_INDEX", Json.num 0) :: rest) tail)
          = "no_inundable")
    ∧ (∀ (q : ℚ) (rest : List (String × Json)) (tail : List Json),
        |q - NODATA| < 1 / 1000000 →
        inundable_from_gray (mkFC (("GRAY_INDEX", Json.num q) :: rest) tail) = "nodata")
    ∧ (∀ (q : ℚ) (rest : List (String × Json)) (tail : List Json),
        q ≠ 0 → ¬ (|q - NODATA| < 1 / 1000000) →
        inundable_from_gray (mkFC (("GRAY_INDEX", Json.num q) :: rest) tail) = "inundable")
    ∧ (∀ (props : List (String × Json)) (tail : List Json),
        jLookup props "GRAY_INDEX" = none →
        inundable_from_gray (mkFC props tail) = "nodata")
    ∧ inundable_from_gray
        (Json.obj [("type", Json.str "FeatureCollection"), ("features", Json.arr [])])
        = "nodata" := by
  refine ⟨fun rest tail => rfl, ?_, ?_, ?_, rfl⟩
  · intro q rest tail h
    have hq0 : q ≠ 0 := ne_zero_of_near_nodata q h
    have step : inundable_from_gray (mkFC (("GRAY_INDEX", Json.num q) :: rest) tail)
        = grayLevel q := rfl
    rw [step, grayLevel, if_neg hq0, if_pos h]
  · intro q rest tail hq0 hfar
    have step : inundable_from_gray (mkFC (("GRAY_INDEX", Json.num q) :: rest) tail)
        = grayLevel q := rfl
    rw [step, grayLevel, if_neg hq0, if_neg hfar]
  · intro props tail h
    have step : inundableCore (mkFC props tail)
        = (match jGetD props "GRAY_INDEX" Json.null with
           | Json.null => some "nodata"
           | Json.num q => some (grayLevel q)
           | Json.bool b => some (grayLevel (if b then 1 else 0))
           | Json.str s =>
             (match parseSignedStr s with
              | some g => some (grayLevel g)
              | none => none)
           | _ => none) := rfl
    rw [inundable_from_gray, step, jGetD, h]
    rfl

/-- Witness for C3: `GRAY_INDEX` of `0`, of the exact sentinel, of `1`,
absent, and an empty feature list, on concrete inputs. -/
theorem inundable_from_gray_claim_witness :
    inundable_from_gray (mkFC [("GRAY_INDEX", Json.num 0)] []) = "no_inundable"
    ∧ (|NODATA - NODATA| < 1 / 1000000
        ∧ inundable_from_gray (mkFC [("GRAY_INDEX", Json.num NODATA)] []) = "nodata")
    ∧ ((1 : ℚ) ≠ 0 ∧ ¬ (|(1 : ℚ) - NODATA| < 1 / 1000000)
        ∧ inundable_from_gray (mkFC [("GRAY_INDEX", Json.num 1)] []) = "inundable")
    ∧ (jLookup [("OTRO", Json.num 3)] "GRAY_INDEX" = none
        ∧ inundable_from_gray (mkFC [("OTRO", Json.num 3)] []) = "nodata")
    ∧ inundable_from_gray
        (Json.obj [("type", Json.str "FeatureCollection"), ("features", Json.arr [])])
        = "nodata" := by
  have hnear : |NODATA - NODATA| < 1 / 1000000 := by
    rw [sub_self, abs_zero]
    norm_num
  have hfar : ¬ (|(1 : ℚ) - NODATA| < 1 / 1000000) := by
    rw [NODATA, neg_mul, sub_neg_eq_add, abs_of_nonneg (by positivity)]
    norm_num
  exact ⟨inundable_from_gray_claim.1 [] [],
    ⟨hnear, inundable_from_gray_claim.2.1 NODATA [] [] hnear⟩,
    ⟨by norm_num, hfar, inundable_from_gray_claim.2.2.1 1 [] [] (by norm_num) hfar⟩,
    ⟨rfl, inundable_from_gray_claim.2.2.2.1 [("OTRO", Json.num 3)] [] rfl⟩,
    inundable_from_gray_claim.2.2.2.2⟩

/-- Helper: the key probe finds nothing when every candidate key is
absent or its value fails `float` conversion. -/
theorem findPGA_none (pkvs : List (String × Json)) (ks : List String)
    (h : ∀ k ∈ ks, ∀ v, jLookup pkvs k = some v → pyFloat v = none) :
    findPGA pkvs ks = none := by
  induction ks with
  | nil => rfl
  | cons k ks ih =>
    have hrest : ∀ k2 ∈ ks, ∀ v, jLookup pkvs k2 = some v → pyFloat v = none :=
      fun k2 hk2 => h k2 (List.mem_cons_of_mem _ hk2)
    rw [findPGA]
    cases hl : jLookup pkvs k with
    | none => exact ih hrest
    | some v =>
      show (match pyFloat v with
        | some q => some q
        | none => findPGA pkvs ks) = none
      rw [h k (List.mem_cons_self k ks) v hl]
      exact ih hrest

/-- C4: `parse_sismico_summary` maps an extracted PGA value `q` to
`bajo` (low) when `q < 0.04`, to `medio` (medium) when
`0.04 ≤ q < 0.08` — so the boundary `q = 0.04` yields medium — and to
`alto` (high) when `q ≥ 0.08` — so `q = 0.08` yields high; it returns
`desconocido` (unknown) when no candidate key spelling holds a value
convertible by `float`, and when the feature list is empty. -/
theorem parse_sismico_claim :
    (∀ (q : ℚ) (rest : List (String × Json)) (tail : List Json),
        parse_sismico_summary (mkFC (("PGA", Json.num q) :: rest) tail)
          = Json.obj [("pga", Json.num q),
              ("riesgo_sismico", Json.str
                (if q < 4 / 100 then "bajo" else if q < 8 / 100 then "medio" else "alto"))])
    ∧ (∀ (props : List (String × Json)) (tail : List Json),
        (∀ k ∈ ["PGA", "pga", "aceleracion", "ACCEL", "amax"],
          ∀ v, jLookup props k = some v → pyFloat v = none) →
        parse_sismico_summary (mkFC props tail)
          = Json.obj [("riesgo_sismico", Json.str "desconocido")])
    ∧ parse_sismico_summary
        (Json.obj [("type", Json.str "FeatureCollection"), ("features", Json.arr [])])
        = Json.obj [("riesgo_sismico", Json.str "desconocido")] := by
  refine ⟨fun q rest tail => rfl, ?_, rfl⟩
  intro props tail h
  have step : sismicoCore (mkFC props tail)
      = (match findPGA props ["PGA", "pga", "aceleracion", "ACCEL", "amax"] with
         | none => some (Json.obj [("riesgo_sismico", Json.str "desconocido")])
         | some pga =>
           some (Json.obj [("pga", Json.num pga),
             ("riesgo_sismico", Json.str (nivelSismico pga))])) := rfl
  rw [parse_sismico_summary, step, findPGA_none props _ h]
  rfl

/-- Witness for C4: PGA values `0.03`, `0.04`, `0.08`, a record with no
parseable PGA field, and an empty feature list, on concrete inputs. -/
theorem parse_sismico_claim_witness :
    parse_sismico_summary (mkFC [("PGA", Json.num (3 / 100))] [])
      = Json.obj [("pga", Json.num (3 / 100)), ("riesgo_sismico", Json.str "bajo")]
    ∧ parse_sismico_summary (mkFC [("PGA", Json.num (4 / 100))] [])
      = Json.obj [("pga", Json.num (4 / 100)), ("riesgo_sismico", Json.str "medio")]
    ∧ parse_sismico_summary (mkFC [("PGA", Json.num (8 / 100))] [])
      = Json.obj [("pga", Json.num (8 / 100)), ("riesgo_sismico", Json.str "alto")]
    ∧ ((∀ k ∈ ["PGA", "pga", "aceleracion", "ACCEL", "amax"],
          ∀ v, jLookup [("OTRO", Json.num 3)] k = some v → pyFloat v = none)
        ∧ parse_sismico_summary (mkFC [("OTRO", Json.num 3)] [])
            = Json.obj [("riesgo_sismico", Json.str "desconocido")])
    ∧ parse_sismico_summary
        (Json.obj [("type", Json.str "FeatureCollection"), ("features", Json.arr [])])
        = Json.obj [("riesgo_sismico", Json.str "desconocido")] := by
  have habsent : ∀ k ∈ ["PGA", "pga", "aceleracion", "ACCEL", "amax"],
      ∀ v, jLookup [("OTRO", Json.num 3)] k = some v → pyFloat v = none := by
    intro k hk v hv
    fin_cases hk <;> simp [jLookup] at hv
  refine ⟨?_, ?_, ?_, ⟨habsent, parse_sismico_claim.2.1 _ [] habsent⟩,
    parse_sismico_claim.2.2⟩
  · rw [parse_sismico_claim.1 (3 / 100) [] [], if_pos (by norm_num)]
  · rw [parse_sismico_claim.1 (4 / 100) [] [], if_neg (by norm_num), if_pos (by norm_num)]
  · rw [parse_sismico_claim.1 (8 / 100) [] [], if_neg (by norm_num), if_neg (by norm_num)]

/-- C1 counterexample: a raw wildfire response whose first feature has
frequency `7` is normalized by `parse_incendios_summary` to the risk
level `medio` (medium), not the lowest nonzero level `bajo` (low): the
code's buckets are `f < 5` → bajo and `5 ≤ f < 20` → medio, not the
`1–5` / `6–10` breakpoints of the claim. -/
theorem parse_incendios_freq7_counterexample :
    parse_incendios_summary (mkFC [("frecuencia", Json.num 7)] [])
      = some (Json.obj [("fuente", Json.str "MITECO"), ("municipio", Json.null),
          ("riesgo_incendios", Json.str "medio"), ("frecuencia_aprox", Json.num 7),
          ("props", Json.obj [("frecuencia", Json.num 7)])])
    ∧ "medio" ≠ "bajo" :=
  ⟨rfl, by decide⟩

/-- C1 amended: for every nonzero frequency `q` in the first feature of a
raw wildfire response, `parse_incendios_summary` buckets it as
`q < 5` → `bajo`, `5 ≤ q < 20` → `medio`, `q ≥ 20` → `alto`; hence
frequency `7` maps to `medio` (zero maps to `ninguno`, but a literal
`0` value is falsy and is skipped by the `or`-probe of the code). -/
theorem parse_incendios_nonzero_freq (q : ℚ) (hq : q ≠ 0) :
    parse_incendios_summary (mkFC [("frecuencia", Json.num q)] [])
      = some (Json.obj [("fuente", Json.str "MITECO"), ("municipio", Json.null),
          ("riesgo_incendios", Json.str
            (if q < 5 then "bajo" else if q < 20 then "medio" else "alto")),
          ("frecuencia_aprox", Json.num q),
          ("props", Json.obj [("frecuencia", Json.num q)])]) := by
  have hfreq : freqOf [("frecuencia", Json.num q)] = Json.num q := by
    rw [freqOf]
    show pyOr (Json.num q) (pyOr Json.null Json.null) = Json.num q
    rw [pyOr, truthy, if_pos (decide_eq_true hq)]
  have step : parse_incendios_summary (mkFC [("frecuencia", Json.num q)] [])
      = (match (match freqOf [("frecuencia", Json.num q)] with
          | Json.null => none
          | f =>
            (match pyFloat f with
             | some qq => some (nivelIncendios qq)
             | none => none)) with
        | some n =>
          some (Json.obj [("fuente", Json.str "MITECO"), ("municipio", Json.null),
            ("riesgo_incendios", Json.str n),
            ("frecuencia_aprox", freqOf [("frecuencia", Json.num q)]),
            ("props", Json.obj [("frecuencia", Json.num q)])])
        | none =>
          some (Json.obj [("fuente", Json.str "MITECO"), ("municipio", Json.null),
            ("riesgo_incendios", Json.str "desconocido"),
            ("props", Json.obj [("frecuencia", Json.num q)])])) := rfl
  rw [step, hfreq]
  show some (Json.obj [("fuente", Json.str "MITECO"), ("municipio", Json.null),
    ("riesgo_incendios", Json.str (nivelIncendios q)), ("frecuencia_aprox", Json.num q),
    ("props", Json.obj [("frecuencia", Json.num q)])]) = _
  rw [nivelIncendios, if_neg hq]

/-- Witness for the amended C1 at frequency `7`. -/
theorem parse_incendios_nonzero_freq_witness :
    (7 : ℚ) ≠ 0
    ∧ parse_incendios_summary (mkFC [("frecuencia", Json.num 7)] [])
      = some (Json.obj [("fuente", Json.str "MITECO"), ("municipio", Json.null),
          ("riesgo_incendios", Json.str
            (if (7 : ℚ) < 5 then "bajo" else if (7 : ℚ) < 20 then "medio" else "alto")),
          ("frecuencia_aprox", Json.num 7),
          ("props", Json.obj [("frecuencia", Json.num 7)])]) :=
  ⟨by norm_num, parse_incendios_nonzero_freq 7 (by norm_num)⟩

/-- C8: `to_webmercator` implements the spherical Web-Mercator forward
transform `x = lon·π/180·R`, `y = R·ln(tan(π/4 + lat·π/360))` with
`R = 6378137.0` (it agrees with the formula everywhere); at
`lat = 0, lon = 0` it yields `(0, 0)`, and at `lat = 45, lon = 90` it
yields exactly the closed-form values `x = R·π/2`,
`y = R·ln(tan(3π/8))`. -/
theorem to_webmercator_claim :
    (∀ lat lon : ℝ, to_webmercator lat lon = webmercatorSpec lat lon)
    ∧ to_webmercator 0 0 = (0, 0)
    ∧ to_webmercator 45 90
      = (6378137.0 * Real.pi / 2, 6378137.0 * Real.log (Real.tan (3 * Real.pi / 8))) := by
  refine ⟨fun lat lon => ?_, ?_, ?_⟩
  · simp only [to_webmercator, webmercatorSpec, Prod.mk.injEq]
    constructor
    · norm_num
      ring
    · have harg : Real.pi / 4.0 + lat * Real.pi / 360.0 = Real.pi / 4 + lat * Real.pi / 360 := by
        norm_num
      rw [harg, mul_comm]
  · simp only [to_webmercator, Prod.mk.injEq]
    constructor
    · norm_num
    · have harg : Real.pi / 4.0 + (0 : ℝ) * Real.pi / 360.0 = Real.pi / 4 := by norm_num
      rw [harg, Real.tan_pi_div_four, Real.log_one, zero_mul]
  · simp only [to_webmercator, Prod.mk.injEq]
    constructor
    · norm_num
      ring
    · have harg : Real.pi / 4.0 + (45 : ℝ) * Real.pi / 360.0 = 3 * Real.pi / 8 := by
        norm_num
        ring
      rw [harg, mul_comm]

end Riesgos
